import Mathlib

/-!
Shallow embedding of the validation and preprocessing layer of PySNAIL
(pysnail/utils.py): the warn/error reporting-policy validators, the
table loader, the augmentation/reduction transform pair and the
likelihood-ratio test.

Modelling conventions.  Python runtime values are an explicit sum type;
Python and numpy floats are rationals (so float.is_integer is a
denominator test); the real-valued log2 used by augment_data is an
abstract function parameter (the structural properties proved below do
not depend on its values); the filesystem behind os.path.isfile is a
predicate on path strings, with os.path.realpath modelled as the
identity; pd.read_csv is an abstract parse parameter.  Each call under
the reporting policy yields an Outcome: the list of warnings emitted by
warnings.warn together with either the returned value or the raised
exception.  Python functions that can fall off the end of their body
return an Option Bool whose none is the implicit Python None.
-/

namespace Pysnail

/-- Python runtime values relevant to utils.py: ints, bools (bool is a
subclass of int), floats (modelled as rationals), strings, flat numeric
lists or 1-d arrays, nested (2-d) lists or arrays, pandas Series (index
labels plus values), pandas DataFrames (index labels only, the columns
being irrelevant here) and None.  Numpy scalar integer and inexact
types are folded into vint and vfloat: the isinstance and np.issubdtype
disjunctions of utils.py collapse to one constructor test each. -/
inductive PyVal where
  | vint (n : ℤ)
  | vbool (b : Bool)
  | vfloat (q : ℚ)
  | vstr (s : String)
  | vlist (elems : List ℚ)
  | vnested (rows : List (List ℚ))
  | vseries (index : List String) (values : List ℚ)
  | vframe (index : List String)
  | vnone
  deriving DecidableEq

/-- The Python exceptions raised in utils.py. -/
inductive PyError where
  | typeError (msg : String)
  | valueError (msg : String)
  | fileNotFoundError (msg : String)
  deriving DecidableEq

deriving instance DecidableEq for Except

/-- Result of one call under the reporting policy: the warnings emitted
via warnings.warn along the way, together with either a returned value
or a raised exception. -/
structure Outcome (α : Type) where
  warnings : List String
  result : Except PyError α
  deriving DecidableEq

/-- Python type(x).__name__ for the modelled values. -/
def typeName : PyVal → String
  | .vint _ => "int"
  | .vbool _ => "bool"
  | .vfloat _ => "float"
  | .vstr _ => "str"
  | .vlist _ => "list"
  | .vnested _ => "list"
  | .vseries _ _ => "Series"
  | .vframe _ => "DataFrame"
  | .vnone => "NoneType"

/-- Abbreviated str(x) rendering, used only inside diagnostic
messages. -/
def pyStr : PyVal → String
  | .vstr s => s
  | .vint n => toString n
  | .vbool b => if b then "True" else "False"
  | .vfloat q => toString q
  | .vnone => "None"
  | _ => "<object>"

/-- isinstance(x, int): true for Python ints and for bools, since bool
is a subclass of int. -/
def isinstanceInt : PyVal → Bool
  | .vint _ => true
  | .vbool _ => true
  | _ => false

/-- isinstance(x, (pd.core.series.Series, pd.core.frame.DataFrame)). -/
def isTabular : PyVal → Bool
  | .vseries _ _ => true
  | .vframe _ => true
  | _ => false

/-- x.index of a Series or DataFrame (junk [] elsewhere; only ever
applied behind an isTabular guard, as in the source). -/
def pyIndex : PyVal → List String
  | .vseries idx _ => idx
  | .vframe idx => idx
  | _ => []

/-- Python comparison x > 0 for numeric values; True compares as 1.
Only reached on values is_integer accepted, so the catch-all arm is
dead code. -/
def pyPos : PyVal → Bool
  | .vint n => decide (0 < n)
  | .vbool b => b
  | .vfloat q => decide (0 < q)
  | _ => false

/-- utils.is_integer (utils.py lines 50-98).  The first branch is the
isinstance(int)/np.issubdtype(np.integer) test, the second the
isinstance(float)/np.issubdtype(np.inexact) test with the
float.is_integer() value check (fractional part exactly zero, i.e.
denominator one in the rational model), the last the WrongType
fallthrough. -/
def is_integer (target : PyVal) (name : String) (warn error : Bool) : Outcome Bool :=
  if isinstanceInt target then ⟨[], .ok true⟩
  else
    match target with
    | .vfloat q =>
      if q.den = 1 then ⟨[], .ok true⟩
      else
        let message := name ++ " should be an integer, got value:" ++ pyStr (.vfloat q)
        ⟨if warn then [message] else [],
         if error then .error (.valueError message) else .ok false⟩
    | _ =>
      let message := name ++ " should be an integer or float number, got type: " ++ typeName target
      ⟨if warn then [message] else [],
       if error then .error (.typeError message) else .ok false⟩

/-- utils.is_positive_integer (utils.py lines 100-136): delegates to
is_integer with the same policy flags, then checks x > 0. -/
def is_positive_integer (x : PyVal) (name : String) (warn error : Bool) : Outcome Bool :=
  let r := is_integer x name warn error
  match r.result with
  | .error e => ⟨r.warnings, .error e⟩
  | .ok true =>
    if pyPos x then ⟨r.warnings, .ok true⟩
    else
      let message := name ++ " should be an positive integer, got value:" ++ pyStr x
      ⟨r.warnings ++ (if warn then [message] else []),
       if error then .error (.valueError message) else .ok false⟩
  | .ok false => ⟨r.warnings, .ok false⟩

/-- utils.is_1darray (utils.py lines 138-189).  The deepcopy and the
list-to-ndarray coercion before the ndim test do not change the model:
vlist is a flat (1-d) list or array, vnested a 2-d one.  Series pass
unconditionally, as in the source. -/
def is_1darray (target : PyVal) (name : String) (warn error : Bool) : Outcome Bool :=
  match target with
  | .vseries _ _ => ⟨[], .ok true⟩
  | .vlist _ => ⟨[], .ok true⟩
  | .vnested _ =>
    let message := name ++ " should have dim = 1, got dim = 2"
    ⟨if warn then [message] else [],
     if error then .error (.valueError message) else .ok false⟩
  | _ =>
    let message := name ++ " should be an instance of list or numpy.ndarray, got type: " ++ typeName target ++ "."
    ⟨if warn then [message] else [],
     if error then .error (.typeError message) else .ok false⟩

/-- utils.is_file (utils.py lines 191-233), parametrised by the
filesystem fs (os.path.isfile composed with os.path.realpath, the
latter modelled as the identity on paths).  On an existing file it
returns True.  On a missing file it warns and falls off the end of the
function (returning Python None) when warn is set, and otherwise raises
TypeError regardless of the error flag.  On a non-string input it
follows the standard policy and returns False. -/
def is_file (fs : String → Bool) (target : PyVal) (name : String) (warn error : Bool) : Outcome (Option Bool) :=
  match target with
  | .vstr s =>
    if fs s then ⟨[], .ok (some true)⟩
    else
      let message := s ++ " does not exist."
      if warn then ⟨[message ++ " Ignore it."], .ok none⟩
      else ⟨[], .error (.typeError message)⟩
  | _ =>
    let message := name ++ " should be an instance of str, got " ++ typeName target ++ "."
    ⟨if warn then [message ++ " Ignore it."] else [],
     if error then .error (.typeError message) else .ok (some false)⟩

/-- utils.is_series_dataframe (utils.py lines 235-273). -/
def is_series_dataframe (target : PyVal) (name : String) (warn error : Bool) : Outcome Bool :=
  if isTabular target then ⟨[], .ok true⟩
  else
    let message := name ++ " should be an instance of pd.core.series.Series or pd.core.frame.DataFrame."
    ⟨if warn then [message ++ " Ignore it."] else [],
     if error then .error (.typeError message) else .ok false⟩

/-- utils.have_same_index (utils.py lines 275-324): validates both
arguments via is_series_dataframe with the same policy flags (Python
and short-circuits, so the second check only runs when the first
returned True), then compares the index label sets with set().  On
equal sets it returns True; on a mismatch it warns or raises per the
flags and otherwise falls off the end of the function (returning Python
None); if either sub-check returned False it returns False. -/
def have_same_index (target source : PyVal) (target_name source_name : String) (warn error : Bool) : Outcome (Option Bool) :=
  let r1 := is_series_dataframe target target_name warn error
  match r1.result with
  | .error e1 => ⟨r1.warnings, .error e1⟩
  | .ok b1 =>
    if b1 then
      let r2 := is_series_dataframe source source_name warn error
      match r2.result with
      | .error e2 => ⟨r1.warnings ++ r2.warnings, .error e2⟩
      | .ok b2 =>
        if b2 then
          if (pyIndex target).toFinset = (pyIndex source).toFinset then
            ⟨r1.warnings ++ r2.warnings, .ok (some true)⟩
          else
            let message := target_name ++ " and " ++ source_name ++ " don't share the same index."
            ⟨r1.warnings ++ r2.warnings ++ (if warn then [message ++ " Ignore it."] else []),
             if error then .error (.valueError message) else .ok none⟩
        else ⟨r1.warnings ++ r2.warnings, .ok (some false)⟩
    else ⟨r1.warnings, .ok (some false)⟩

/-- Python truthiness of a True/False/None result, as tested by the
elif is_file(target) condition of read_series. -/
def truthy : Option Bool → Bool
  | some b => b
  | none => false

/-- The path string inside a value (only read behind a successful
is_file check, which guarantees a string). -/
def strOf : PyVal → String
  | .vstr s => s
  | _ => ""

/-- utils.read_series (utils.py lines 326-365), parametrised by the
filesystem fs and by parse, the pd.read_csv call on the resolved path
(tab-separated, first column the index, no header).  A Series input is
returned unchanged.  Otherwise the source calls is_file(target) WITH
DEFAULT FLAGS (name variable, warn False, error False), so for a
missing string path is_file raises TypeError out of read_series; the
final branch returning None or raising FileNotFoundError is only
reachable when is_file returned a falsy value without raising, i.e. for
non-string, non-Series inputs. -/
def read_series (fs : String → Bool) (parse : String → PyVal) (target : PyVal) (warn error : Bool) : Outcome PyVal :=
  match target with
  | .vseries idx vals => ⟨[], .ok (.vseries idx vals)⟩
  | _ =>
    let chk := is_file fs target "variable" false false
    match chk.result with
    | .error e => ⟨chk.warnings, .error e⟩
    | .ok r =>
      if truthy r then ⟨chk.warnings, .ok (parse (strOf target))⟩
      else
        let message := pyStr target ++ " does not exist."
        ⟨chk.warnings ++ (if warn then [message ++ " Ignore it."] else []),
         if error then .error (.fileNotFoundError message) else .ok .vnone⟩

/-- np.max of a nonempty list (the empty case is handled separately in
augment_data, where numpy raises). -/
def listMax : List ℚ → ℚ
  | [] => 0
  | x :: xs => xs.foldl max x

/-- np.min of a nonempty list. -/
def listMin : List ℚ → ℚ
  | [] => 0
  | x :: xs => xs.foldl min x

/-- utils.augment_data (utils.py lines 15-48), parametrised by log2,
the elementwise np.log2 (abstract: the structural properties below hold
for every realisation).  The input is already flat, modelling
target.reshape(-1).  The np.isclose(np.mean(target), 0) test on lines
38-41 only emits a warning and never changes the returned value, so it
is omitted from the value-level model.  On an empty input np.max raises
ValueError (zero-size array reduction) before any branch is taken.
Otherwise, when max < 100 and min < 0 the log step is skipped (with a
warning only), else target becomes log2(target + 1) elementwise; the
result is np.concatenate([target, -1 * target]). -/
def augment_data (log2 : ℚ → ℚ) (target : List ℚ) : Except PyError (List ℚ) :=
  if target = [] then
    .error (.valueError "zero-size array to reduction operation maximum which has no identity")
  else
    let t := if listMax target < 100 ∧ listMin target < 0
             then target
             else target.map (fun v => log2 (v + 1))
    .ok (t ++ t.map (fun v => -v))

/-- utils.reduce_data (utils.py lines 367-382): np.split(target, 2,
axis)[0] on a 1-d input (axis 0 is the only axis of the model).  When
the length is even this is the first half; otherwise np.split raises
ValueError, since the split cannot produce equal sections. -/
def reduce_data (target : List ℚ) : Except PyError (List ℚ) :=
  if target.length % 2 = 0 then .ok (target.take (target.length / 2))
  else .error (.valueError "array split does not result in an equal division")

/-- utils.likelihood_ratio_test (utils.py lines 384-407), parametrised
by chi2_sf, the scipy.stats.chi2.sf survival function (abstract real
function of the statistic and the degrees of freedom).  No input
validation is performed: the body is the pure formula
chi2_sf(2 * (ll_complex - ll_simplified), df). -/
def likelihood_ratio_test (chi2_sf : ℝ → ℕ → ℝ) (log_likelihood_simplified log_likelihood_complex : ℝ) (df : ℕ) : ℝ :=
  chi2_sf (2 * (log_likelihood_complex - log_likelihood_simplified)) df

/-- Chi-squared survival function at 4 degrees of freedom, written from
the mathematical definition the spec appeals to (for even df = 4 the
upper-tail probability is exp(-x/2) * (1 + x/2)); this is the spec-side
reference against which the value returned by likelihood_ratio_test is
compared. -/
noncomputable def chi2sf_df4 (x : ℝ) : ℝ := (1 + x / 2) * Real.exp (-(x / 2))

/-- The rational one half, given directly in lowest terms so that its
denominator evaluates by kernel reduction; used as the concrete
non-integral float in witnesses. -/
def half : ℚ := ⟨1, 2, by decide, Nat.coprime_one_left 2⟩

/-- Claim C7: every integer passes is_integer under every policy; every
float whose fractional part is exactly zero passes; a float with
non-zero fractional part under the default (non-warn, non-error) policy
returns False without raising; a non-numeric input under the default
policy returns False, and its failure kind is the WrongType TypeError
(raised only when the error flag is set). -/
theorem is_integer_spec (name : String) (w e : Bool) :
    (∀ k : ℤ, (is_integer (.vint k) name w e).result = .ok true) ∧
    (∀ q : ℚ, q.den = 1 → (is_integer (.vfloat q) name w e).result = .ok true) ∧
    (∀ q : ℚ, q.den ≠ 1 → (is_integer (.vfloat q) name false false).result = .ok false) ∧
    (∀ v : PyVal, isinstanceInt v = false → (∀ q : ℚ, v ≠ .vfloat q) →
      (is_integer v name false false).result = .ok false ∧
      (is_integer v name false true).result =
        .error (.typeError (name ++ " should be an integer or float number, got type: " ++ typeName v))) := by
  refine ⟨fun k => rfl, fun q hq => ?_, fun q hq => ?_, fun v hv hvf => ?_⟩
  · simp [is_integer, isinstanceInt, hq]
  · simp [is_integer, isinstanceInt, hq]
  · cases v <;> simp_all [is_integer, isinstanceInt]

/-- Witness for is_integer_spec at concrete inputs: the integer 7, the
floats 1.0 and 0.5, and the string "a". -/
theorem is_integer_spec_witness :
    ((1 : ℚ).den = 1) ∧ (half.den ≠ 1) ∧ (isinstanceInt (.vstr "a") = false) ∧
    (is_integer (.vint 7) "variable" false false).result = .ok true ∧
    (is_integer (.vfloat 1) "variable" false false).result = .ok true ∧
    (is_integer (.vfloat half) "variable" false false).result = .ok false ∧
    (is_integer (.vstr "a") "variable" false false).result = .ok false := by
  refine ⟨by decide, by decide, by decide, (is_integer_spec "variable" false false).1 7, ?_, ?_, ?_⟩
  · exact (is_integer_spec "variable" false false).2.1 1 (by decide)
  · exact (is_integer_spec "variable" false false).2.2.1 half (by decide)
  · exact ((is_integer_spec "variable" false false).2.2.2 (.vstr "a") (by decide)
      (fun q h => by cases h)).1

/-- Claim C10: Python booleans are accepted as integers by the public
validators, bool being a subclass of int whose isinstance check matches
before any fractional-part or type test: is_integer returns True on
both booleans under every policy, and is_positive_integer on True
returns True. -/
theorem bool_accepted_as_integer (name : String) (w e : Bool) :
    (∀ b : Bool, (is_integer (.vbool b) name w e).result = .ok true) ∧
    (is_positive_integer (.vbool true) name w e).result = .ok true :=
  ⟨fun _ => rfl, rfl⟩

/-- Claim C9: reduce_data on a vector of odd length never returns a
value: the two-way equal split fails hard with numpy's ValueError. -/
theorem reduce_data_odd_length_fails (l : List ℚ) (h : l.length % 2 = 1) :
    reduce_data l = .error (.valueError "array split does not result in an equal division") := by
  unfold reduce_data
  rw [if_neg (by omega)]

/-- Witness for reduce_data_odd_length_fails at the length-3 vector
[1, 2, 3]. -/
theorem reduce_data_odd_length_fails_witness :
    ([1, 2, 3] : List ℚ).length % 2 = 1 ∧
    reduce_data [1, 2, 3] = .error (.valueError "array split does not result in an equal division") :=
  ⟨by decide, reduce_data_odd_length_fails [1, 2, 3] (by decide)⟩

/-- Claim C3: on a string path that does not resolve to an existing
file, is_file with warn set emits the warning and continues without
raising (the function falls through), while with warn unset it raises
TypeError regardless of the error flag. -/
theorem is_file_missing_file_policy (fs : String → Bool) (s name : String) (e : Bool)
    (h : fs s = false) :
    (is_file fs (.vstr s) name true e).result = .ok none ∧
    (is_file fs (.vstr s) name true e).warnings = [s ++ " does not exist." ++ " Ignore it."] ∧
    (is_file fs (.vstr s) name false e).result = .error (.typeError (s ++ " does not exist.")) := by
  unfold is_file
  simp [h]

/-- Witness for is_file_missing_file_policy on the empty filesystem at
the path "data.tsv", with the error flag both unset and set. -/
theorem is_file_missing_file_policy_witness :
    ((fun _ => false : String → Bool) "data.tsv" = false) ∧
    (is_file (fun _ => false) (.vstr "data.tsv") "variable" true false).result = .ok none ∧
    (is_file (fun _ => false) (.vstr "data.tsv") "variable" false true).result =
      .error (.typeError ("data.tsv" ++ " does not exist.")) :=
  ⟨rfl,
   (is_file_missing_file_policy (fun _ => false) "data.tsv" "variable" false rfl).1,
   (is_file_missing_file_policy (fun _ => false) "data.tsv" "variable" true rfl).2.2⟩

/-- Claim C1 (code bug in read_series): on a string path that does not
resolve to an existing file, read_series raises TypeError out of its
unguarded is_file(target) call, which is made with default flags
(warn False, error False), both under the default policy and with
error set; it neither returns None nor raises FileNotFoundError,
contradicting its own docstring (the Series, or None if the file cannot
be loaded). -/
theorem read_series_missing_path_raises_type_error :
    (read_series (fun _ => false) (fun _ => .vnone) (.vstr "expression.tsv") false false).result =
      .error (.typeError ("expression.tsv" ++ " does not exist.")) ∧
    (read_series (fun _ => false) (fun _ => .vnone) (.vstr "expression.tsv") false true).result =
      .error (.typeError ("expression.tsv" ++ " does not exist.")) :=
  ⟨rfl, rfl⟩

/-- Claim C2 (code bug): two of the enumerated failure paths do not
return the boolean False.  have_same_index on two Series with
mismatched index label sets under warn False, error False falls off the
end of its body and returns None, and is_file on a missing path with
warn set likewise returns None, both contradicting the declared bool
return type and docstring; the remaining enumerated paths (shown for
is_integer on a non-integral float, is_positive_integer on a
non-positive value, is_1darray on a 2-d input, is_series_dataframe on a
non-tabular input, and is_file on a non-string input) do return
False. -/
theorem validator_fallthrough_returns_none :
    (have_same_index (.vseries ["x"] [1]) (.vseries ["y"] [1]) "variable 1" "variable 2"
      false false).result = .ok none ∧
    (is_file (fun _ => false) (.vstr "missing.tsv") "variable" true false).result = .ok none ∧
    (is_integer (.vfloat half) "variable" false false).result = .ok false ∧
    (is_positive_integer (.vint (-1)) "variable" false false).result = .ok false ∧
    (is_1darray (.vnested [[1], [2]]) "variable" false false).result = .ok false ∧
    (is_series_dataframe (.vint 0) "variable" false false).result = .ok false ∧
    (is_file (fun _ => false) (.vint 0) "variable" false false).result = .ok (some false) := by
  refine ⟨?_, rfl, ?_, rfl, rfl, rfl, rfl⟩
  · decide
  · decide

/-- Claim C4: when the log branch is taken (input nonempty and the
skip condition max < 100 and min < 0 failing, which in particular holds
whenever the claim's own hypotheses do), augment_data succeeds and the
output has twice the input length, its second half is the elementwise
negation of its first half, and the first half is log2(input + 1)
elementwise. -/
theorem augment_data_log_branch_sign_symmetry (log2 : ℚ → ℚ) (v : List ℚ)
    (hne : v ≠ []) (h : ¬(listMax v < 100 ∧ listMin v < 0)) :
    ∃ a, augment_data log2 v = .ok a ∧
      a.length = 2 * v.length ∧
      a.drop v.length = (a.take v.length).map (fun y => -y) ∧
      a.take v.length = v.map (fun y => log2 (y + 1)) := by
  have hlen : (v.map fun y => log2 (y + 1)).length = v.length := List.length_map _ _
  refine ⟨(v.map fun y => log2 (y + 1)) ++ (v.map fun y => log2 (y + 1)).map (fun y => -y),
    ?_, ?_, ?_, ?_⟩
  · unfold augment_data
    rw [if_neg hne, if_neg h]
  · simp only [List.length_append, List.length_map]
    omega
  · rw [← hlen, List.drop_left, List.take_left]
  · rw [← hlen, List.take_left]

/-- Witness for augment_data_log_branch_sign_symmetry at the vector
[0, 1, 3] (max 3 < 100 but min 0 not negative, so the log branch is
taken), with log2 instantiated by the identity. -/
theorem augment_data_log_branch_sign_symmetry_witness :
    (([0, 1, 3] : List ℚ) ≠ []) ∧
    ¬(listMax [0, 1, 3] < 100 ∧ listMin [0, 1, 3] < 0) ∧
    (∃ a, augment_data (fun q => q) [0, 1, 3] = .ok a ∧
      a.length = 2 * ([0, 1, 3] : List ℚ).length ∧
      a.drop ([0, 1, 3] : List ℚ).length = (a.take ([0, 1, 3] : List ℚ).length).map (fun y => -y) ∧
      a.take ([0, 1, 3] : List ℚ).length = ([0, 1, 3] : List ℚ).map (fun y => (fun q => q) (y + 1))) :=
  ⟨by decide, by decide,
   augment_data_log_branch_sign_symmetry (fun q => q) [0, 1, 3] (by decide) (by decide)⟩

/-- Claim C5 counterexample: on the empty vector the claim fails,
because augment_data itself raises (np.max of a zero-size array), so
reduce_data(augment_data([])) produces no value at all, let alone one
of length 0. -/
theorem reduce_augment_empty_vector_fails :
    (augment_data (fun q => q) ([] : List ℚ)).bind reduce_data =
      .error (.valueError "zero-size array to reduction operation maximum which has no identity") :=
  rfl

/-- Claim C5 (amended to nonempty input): for every nonempty vector v
of length n, augment_data doubles the length to 2n by concatenation,
reduce_data splits the result into two equal halves along the axis and
returns the first, and so the composite returns a vector of length n
(without undoing the log transform). -/
theorem reduce_data_augment_data_length (log2 : ℚ → ℚ) (v : List ℚ) (hne : v ≠ []) :
    ∃ a r, augment_data log2 v = .ok a ∧ a.length = 2 * v.length ∧
      reduce_data a = .ok r ∧ r.length = v.length := by
  have key : ∀ t : List ℚ, t.length = v.length →
      ∃ a r, (Except.ok (t ++ t.map (fun x => -x)) : Except PyError (List ℚ)) = .ok a ∧
        a.length = 2 * v.length ∧ reduce_data a = .ok r ∧ r.length = v.length := by
    intro t hlen
    have hax : (t ++ t.map (fun x => -x)).length = 2 * v.length := by
      simp only [List.length_append, List.length_map, hlen]
      omega
    refine ⟨t ++ t.map (fun x => -x),
      (t ++ t.map (fun x => -x)).take ((t ++ t.map (fun x => -x)).length / 2), rfl, hax, ?_, ?_⟩
    · unfold reduce_data
      rw [if_pos (by omega)]
    · rw [List.length_take]
      omega
  by_cases hc : listMax v < 100 ∧ listMin v < 0
  · simp only [augment_data, if_neg hne, if_pos hc]
    exact key v rfl
  · simp only [augment_data, if_neg hne, if_neg hc]
    exact key (v.map fun x => log2 (x + 1)) (List.length_map _ _)

/-- Witness for reduce_data_augment_data_length at the singleton vector
[2], with log2 instantiated by the identity. -/
theorem reduce_data_augment_data_length_witness :
    (([2] : List ℚ) ≠ []) ∧
    (∃ a r, augment_data (fun q => q) [2] = .ok a ∧ a.length = 2 * ([2] : List ℚ).length ∧
      reduce_data a = .ok r ∧ r.length = ([2] : List ℚ).length) :=
  ⟨by decide, reduce_data_augment_data_length (fun q => q) [2] (by decide)⟩

/-- Claim C6: for two tabular inputs (Series or DataFrames),
have_same_index returns True exactly when the index label sets are
equal as sets, hence independently of order and construction; on a set
mismatch the call never returns True: it raises ValueError when the
error flag is set and otherwise falls through to the falsy None; when
an input is not tabular the index comparison is skipped entirely and
the call returns False, or propagates the is_series_dataframe
TypeError when the error flag is set. -/
theorem have_same_index_spec (t s : PyVal) (tn sn : String) (w e : Bool) :
    (isTabular t = true → isTabular s = true →
      (((have_same_index t s tn sn w e).result = .ok (some true)) ↔
        (pyIndex t).toFinset = (pyIndex s).toFinset)) ∧
    (isTabular t = true → isTabular s = true →
      (pyIndex t).toFinset ≠ (pyIndex s).toFinset →
      (have_same_index t s tn sn w e).result =
        (if e then .error (.valueError (tn ++ " and " ++ sn ++ " don't share the same index."))
         else .ok none)) ∧
    (isTabular t = false →
      (have_same_index t s tn sn w e).result =
        (if e then .error (.typeError (tn ++ " should be an instance of pd.core.series.Series or pd.core.frame.DataFrame."))
         else .ok (some false))) ∧
    (isTabular t = true → isTabular s = false →
      (have_same_index t s tn sn w e).result =
        (if e then .error (.typeError (sn ++ " should be an instance of pd.core.series.Series or pd.core.frame.DataFrame."))
         else .ok (some false))) := by
  refine ⟨?_, ?_, ?_, ?_⟩
  · intro ht hs
    by_cases hset : (pyIndex t).toFinset = (pyIndex s).toFinset
    · simp [have_same_index, is_series_dataframe, ht, hs, hset]
    · cases e <;> simp [have_same_index, is_series_dataframe, ht, hs, hset]
  · intro ht hs hset
    cases e <;> simp [have_same_index, is_series_dataframe, ht, hs, hset]
  · intro ht
    cases e <;> simp [have_same_index, is_series_dataframe, ht]
  · intro ht hs
    cases e <;> simp [have_same_index, is_series_dataframe, ht, hs]

/-- Witness for have_same_index_spec: equal label sets under permuted
construction return True; a one-element difference returns the falsy
None; a non-tabular first argument returns False. -/
theorem have_same_index_spec_witness :
    (isTabular (.vseries ["x", "y", "z"] [1, 2, 3]) = true) ∧
    ((pyIndex (.vseries ["x", "y", "z"] [1, 2, 3])).toFinset =
      (pyIndex (.vseries ["z", "y", "x"] [3, 2, 1])).toFinset) ∧
    (have_same_index (.vseries ["x", "y", "z"] [1, 2, 3]) (.vseries ["z", "y", "x"] [3, 2, 1])
      "variable 1" "variable 2" false false).result = .ok (some true) ∧
    (have_same_index (.vseries ["x", "y"] [1, 2]) (.vseries ["x", "y", "z"] [1, 2, 3])
      "variable 1" "variable 2" false false).result = .ok none ∧
    (have_same_index (.vint 3) (.vseries ["x"] [1]) "variable 1" "variable 2"
      false false).result = .ok (some false) := by
  refine ⟨rfl, by decide, ?_, ?_, ?_⟩
  · exact ((have_same_index_spec (.vseries ["x", "y", "z"] [1, 2, 3])
      (.vseries ["z", "y", "x"] [3, 2, 1]) "variable 1" "variable 2" false false).1
        rfl rfl).mpr (by decide)
  · have h := (have_same_index_spec (.vseries ["x", "y"] [1, 2])
      (.vseries ["x", "y", "z"] [1, 2, 3]) "variable 1" "variable 2" false false).2.1
        rfl rfl (by decide)
    simpa using h
  · have h := (have_same_index_spec (.vint 3) (.vseries ["x"] [1])
      "variable 1" "variable 2" false false).2.2.1 rfl
    simpa using h

/-- Real.exp 10 as a tenth power of e, shared by the numeric bounds. -/
theorem exp_ten_eq : Real.exp 10 = Real.exp 1 ^ 10 := by
  rw [← Real.exp_nat_mul]
  norm_num

/-- Lower numeric bound on exp 10, from the nine-digit bound on e. -/
theorem exp_ten_gt : (22026 : ℝ) < Real.exp 10 := by
  rw [exp_ten_eq]
  calc (22026 : ℝ) < 2.7182818283 ^ 10 := by norm_num
    _ < Real.exp 1 ^ 10 :=
        pow_lt_pow_left₀ Real.exp_one_gt_d9 (by norm_num) (by norm_num)

/-- Upper numeric bound on exp 10, from the nine-digit bound on e. -/
theorem exp_ten_lt : Real.exp 10 < 22027 := by
  rw [exp_ten_eq]
  calc Real.exp 1 ^ 10 < 2.7182818286 ^ 10 :=
        pow_lt_pow_left₀ Real.exp_one_lt_d9 (Real.exp_pos 1).le (by norm_num)
    _ < 22027 := by norm_num

/-- The chi-squared(4) upper tail at 20 equals 11 / exp 10. -/
theorem chi2sf_df4_twenty : chi2sf_df4 20 = 11 * (Real.exp 10)⁻¹ := by
  unfold chi2sf_df4
  rw [Real.exp_neg]
  norm_num

/-- Numeric enclosure of the chi-squared(4) upper tail at 20: it lies
strictly between 0.000499 and 0.0004995 (its value is about
0.0004994). -/
theorem chi2sf_df4_twenty_bounds :
    (0.000499 : ℝ) < chi2sf_df4 20 ∧ chi2sf_df4 20 < 0.0004995 := by
  have hgt := exp_ten_gt
  have hlt := exp_ten_lt
  have hpos : (0 : ℝ) < Real.exp 10 := Real.exp_pos 10
  rw [chi2sf_df4_twenty]
  constructor
  · rw [← div_eq_mul_inv, lt_div_iff₀ hpos]
    nlinarith
  · rw [← div_eq_mul_inv, div_lt_iff₀ hpos]
    nlinarith

/-- Claim C8 counterexample: at ll_simple = -100, ll_complex = -90,
df = 4, the code's p-value is the chi-squared(4) upper tail at 20,
which is strictly below 0.0005 and further than 0.0000035 away from
0.000503; so the result is not approximately 0.000503 (it is
approximately 0.000499). -/
theorem likelihood_ratio_test_value_not_point000503 :
    likelihood_ratio_test (fun x _ => chi2sf_df4 x) (-100) (-90) 4 < 0.0005 ∧
    (0.000503 : ℝ) - likelihood_ratio_test (fun x _ => chi2sf_df4 x) (-100) (-90) 4 > 0.0000035 := by
  have hv : likelihood_ratio_test (fun x _ => chi2sf_df4 x) (-100) (-90) 4 = chi2sf_df4 20 := by
    unfold likelihood_ratio_test
    norm_num
  have hb := chi2sf_df4_twenty_bounds
  rw [hv]
  constructor <;> nlinarith [hb.1, hb.2]

/-- Claim C8 (amended): likelihood_ratio_test returns exactly the
survival function applied to 2 * (ll_complex - ll_simplified) at df
degrees of freedom, with no input validation inside the function; at
(-100, -90, 4) the statistic is 20 and the result is the chi-squared(4)
upper-tail probability at 20, which is approximately 0.000499 (strictly
between 0.000499 and 0.0005), not 0.000503. -/
theorem likelihood_ratio_test_formula_and_value :
    (∀ (chi2_sf : ℝ → ℕ → ℝ) (lls llc : ℝ) (df : ℕ),
      likelihood_ratio_test chi2_sf lls llc df = chi2_sf (2 * (llc - lls)) df) ∧
    (∀ chi2_sf : ℝ → ℕ → ℝ, likelihood_ratio_test chi2_sf (-100) (-90) 4 = chi2_sf 20 4) ∧
    (0.000499 : ℝ) < likelihood_ratio_test (fun x _ => chi2sf_df4 x) (-100) (-90) 4 ∧
    likelihood_ratio_test (fun x _ => chi2sf_df4 x) (-100) (-90) 4 < 0.0005 := by
  have hv : likelihood_ratio_test (fun x _ => chi2sf_df4 x) (-100) (-90) 4 = chi2sf_df4 20 := by
    unfold likelihood_ratio_test
    norm_num
  have hb := chi2sf_df4_twenty_bounds
  refine ⟨fun _ _ _ _ => rfl, fun c => ?_, ?_, ?_⟩
  · unfold likelihood_ratio_test
    norm_num
  · rw [hv]
    exact hb.1
  · rw [hv]
    nlinarith [hb.2]

end Pysnail
